import Mathlib

/-!
Verification of the retrieval-augmented self-correcting answer pipeline of
the multicomponent smart-logging troubleshooter (`v10_graph_nodes.py`).

Each LangGraph node (`retrieve`, `rerank`, `grade_documents`, `generate`,
`transform_query`) is embedded as a pure function on an explicit
`GraphState`.  Every external call (hybrid retriever, BGE reranker, model
inference for grading / generation / query rewriting, JSON parsing of the
structured-alert payload) is an explicit oracle argument of type
`Except String _` (`Except.error` models the Python call raising an
exception), so that every exception-handling branch of the source is a
visible branch of the embedding.  Scores are embedded as rationals.
-/

/-! ### String helpers mirroring the Python primitives used by the nodes
These are structurally recursive so that concrete instances evaluate in the
kernel. -/

/-- Python `s.lower()` (ASCII case folding, which is all the sources rely on). -/
def pyLower (s : String) : String := ⟨s.data.map Char.toLower⟩

/-- Helper for substring containment on character lists. -/
def containsAux (needle : List Char) : List Char → Bool
  | [] => needle.isEmpty
  | c :: cs => needle.isPrefixOf (c :: cs) || containsAux needle cs

/-- Python `needle in hay` on strings (substring containment). -/
def pyContains (hay needle : String) : Bool := containsAux needle.data hay.data

/-- Whitespace recognised by Python `str.strip()` (the ASCII part). -/
def isStripChar (c : Char) : Bool :=
  c = ' ' || c = '\t' || c = '\n' || c = '\r' || c = '\x0b' || c = '\x0c'

/-- Python `s.strip()`. -/
def pyStrip (s : String) : String :=
  ⟨(((s.data.dropWhile isStripChar).reverse).dropWhile isStripChar).reverse⟩

/-- Fuel-indexed worker for `pySplit` (the fuel is an upper bound on the
number of characters still to be consumed, so it never runs out when
called with `hay.length + 1`). -/
def splitGo (sep : List Char) : Nat → List Char → List Char → List (List Char)
  | 0, rest, acc => [acc ++ rest]
  | _ + 1, [], acc => [acc]
  | n + 1, c :: cs, acc =>
    if sep.isPrefixOf (c :: cs) then acc :: splitGo sep n ((c :: cs).drop sep.length) []
    else splitGo sep n cs (acc ++ [c])

/-- Python `s.split(sep)` for a non-empty separator. -/
def pySplit (s sep : String) : List String :=
  (splitGo sep.data (s.data.length + 1) s.data []).map (fun l => ⟨l⟩)

/-! ### Data model (`v10_state_schema.GraphState` as used by the nodes) -/

/-- A retrieved chunk: `content` plus the rank-derived fusion `score`
(`1.0 / (i + 1)` at retrieval time). -/
structure Doc where
  content : String
  score : ℚ
deriving Repr, DecidableEq

/-- Flattened embedding of `AnsibleRemediationOutput` (see
`v10_ansible_schemas.py`) as built by `generate` at lines 553-598 of
`v10_graph_nodes.py`.  The `commonLabels` / `commonAnnotations` dictionaries
of the source duplicate the per-alert label values recorded here. -/
structure AnsibleRemediationOutput where
  metaEndpoint : String
  metaReceivedAt : String
  metaSourceName : String
  metaSourceType : String
  metaSourceUuid : String
  alertname : String
  instanceLabel : String
  labelNamespace : String
  labelPodName : String
  labelSeverity : String
  summary : String
  description : String
  startsAt : String
  endsAt : String
  generatorURL : String
  externalURL : String
  groupKey : String
  receiver : String
  status : String
  version : String
  rca : String
  playbook : Option String
deriving Repr, DecidableEq

/-- The session state threaded through the graph.  `nsName` embeds the
`namespace` key of the Python state dict. -/
structure GraphState where
  question : String
  log_context : String
  pod_events : String
  nsName : String
  pod_name : String
  retrieved_docs : List Doc
  reranked_docs : List Doc
  relevance_scores : List ℚ
  generation : String
  iteration : Nat
  transformation_history : List String
  ansible_output : Option AnsibleRemediationOutput
  ansible_formatted : Option String
deriving Repr, DecidableEq

/-! ### NODE 1: `retrieve` (lines 60-134) -/

/-- Lines 74-77: combine `log_context` with `pod_events` under the
section header when events are present. -/
def combinedLogs (s : GraphState) : String :=
  if s.pod_events ≠ "" then
    s.log_context ++ "\n\n=== Pod Events ===\n" ++ s.pod_events
  else s.log_context

/-- Lines 111-118: convert the retriever output to chunk records with the
simple ranking score `1.0 / (i + 1)`. -/
def docsFromContents (contents : List String) : List Doc :=
  contents.enum.map (fun p => { content := p.2, score := 1 / (p.1 + 1 : ℚ) })

/-- NODE 1 (`retrieve`): short-circuits to an empty result below the
50-character evidence threshold (lines 79-84); otherwise queries the fresh
hybrid retriever (oracle `retr`); any exception is caught and converted to
an empty result with the question unchanged (lines 127-134). -/
def retrieve (retr : Except String (List String)) (s : GraphState) : GraphState :=
  if combinedLogs s = "" ∨ (combinedLogs s).length < 50 then
    { s with retrieved_docs := [] }
  else
    match retr with
    | .ok contents => { s with retrieved_docs := docsFromContents contents }
    | .error _ => { s with retrieved_docs := [] }

/-! ### NODE 2: `rerank` (lines 136-183) -/

/-- Lines 177-182: the fallback taken when the BGE reranker raises — sort
the original candidates by fusion score, descending (Python `sorted` with
`reverse=True` is stable, as is `mergeSort`), and keep the top 5. -/
def rerankFallback (docs : List Doc) : List Doc :=
  (docs.mergeSort (fun a b => decide (b.score ≤ a.score))).take 5

/-- NODE 2 (`rerank`): empty input passes through (lines 148-150); a
successful reranker call (oracle `rk`) replaces the list; an exception
triggers the conservative score-sorted top-5 fallback. -/
def rerank (rk : Except String (List Doc)) (s : GraphState) : GraphState :=
  if s.retrieved_docs = [] then { s with reranked_docs := [] }
  else
    match rk with
    | .ok docs => { s with reranked_docs := docs }
    | .error _ => { s with reranked_docs := rerankFallback s.retrieved_docs }

/-! ### NODE 3: `grade_documents` (lines 185-264) -/

/-- Lines 209-256: the grading loop.  For document `i` the oracle `g i` is
the outcome of the model judgment call; on success the lowercased response
is checked for the substring `yes` (kept with score `1.0`, otherwise
dropped with score `0.0`); an exception keeps the document with score
`0.5`.  Note that a dropped document still contributes a `0.0` entry to
the score list. -/
def gradeLoop (g : Nat → Except String String) : Nat → List Doc → List Doc × List ℚ
  | _, [] => ([], [])
  | i, d :: ds =>
    let rest := gradeLoop g (i + 1) ds
    match g i with
    | .ok resp =>
      if pyContains (pyLower resp) "yes" then (d :: rest.1, 1 :: rest.2)
      else (rest.1, 0 :: rest.2)
    | .error _ => (d :: rest.1, (1 / 2 : ℚ) :: rest.2)

/-- NODE 3 (`grade_documents`): empty input returns empty outputs
(lines 197-203); otherwise the loop result replaces `reranked_docs` and
`relevance_scores`. -/
def grade_documents (g : Nat → Except String String) (s : GraphState) : GraphState :=
  if s.reranked_docs = [] then
    { s with reranked_docs := [], relevance_scores := [] }
  else
    let fr := gradeLoop g 0 s.reranked_docs
    { s with reranked_docs := fr.1, relevance_scores := fr.2 }

/-- The per-document grading decision table as the spec states it
(§4.4): a pair of the keep decision and the recorded relevance score,
as a function of the judgment-call outcome alone.  Stated separately from
`gradeLoop` so that the loop can be proved pointwise-determined by it. -/
def specGradeDecision (resp : Except String String) : Bool × ℚ :=
  match resp with
  | .ok t => if pyContains (pyLower t) "yes" then (true, 1) else (false, 0)
  | .error _ => (true, 1 / 2)

/-! ### NODE 4: `generate` (lines 266-622) -/

/-- Line 281: the fixed answer returned when the filtered evidence list is
empty. -/
def noDataMsg : String :=
  "❌ No relevant log data found to answer the question. Please try rephrasing or check if logs are available."

/-- The result of `json.loads` on the structured-alert response, as far as
`generate` consumes it (lines 540-545): the three `parsed.get` lookups.
`jsonParse` returning `none` models `json.loads` raising on a malformed
payload. -/
structure ParsedAlert where
  alert_name : Option String
  severity : Option String
  rca : Option String
deriving Repr, DecidableEq

/-- Oracle bundle for `generate`: the primary generation call, the
structured-alert call, the JSON parser, and the ambient values the source
takes from `uuid` / `datetime` / the model configuration. -/
structure GenEnv where
  genCall : Except String String
  ansibleCall : Except String String
  jsonParse : String → Option ParsedAlert
  uuidValue : String
  timestampValue : String
  modelDisplayName : String
  modelProvider : String

/-- Lines 533-538: extract the JSON body from markdown code fences when
present. -/
def extractJson (t : String) : String :=
  if pyContains t "```json" then
    pyStrip ((pySplit ((pySplit t "```json").getD 1 "") "```").getD 0 "")
  else if pyContains t "```" then
    pyStrip ((pySplit ((pySplit t "```").getD 1 "") "```").getD 0 "")
  else t

/-- Lines 456-460: the metadata trailer appended to every successful
generation. -/
def metadataTrailer (env : GenEnv) (s : GraphState) : String :=
  "\n\n---\n**🎯 Analysis Metadata**:\n" ++
  "- **Model**: " ++ env.modelDisplayName ++ "\n" ++
  "- **Provider**: " ++ env.modelProvider ++ "\n" ++
  "- **Evidence**: " ++ toString s.reranked_docs.length ++ " log snippets\n" ++
  "- **Iteration**: " ++ toString s.iteration ++ "\n"

/-- Line 469: the structured-alert path is attempted only when the
namespace value is truthy and its lowercasing is not in
`['none', 'unknown', '']`. -/
def nsEligible (nsv : String) : Bool :=
  nsv ≠ "" && !(pyLower nsv = "none" || pyLower nsv = "unknown" || pyLower nsv = "")

/-- Lines 543-598: assemble the `AnsibleRemediationOutput` record from the
parsed payload with the source defaults for missing fields. -/
def buildRemediation (env : GenEnv) (s : GraphState) (parsed : ParsedAlert) :
    AnsibleRemediationOutput :=
  let alertName := parsed.alert_name.getD "KubernetesPodIssue"
  let severity := parsed.severity.getD "warning"
  let rcaText := parsed.rca.getD "Root cause analysis not available"
  { metaEndpoint := "alerts"
    metaReceivedAt := env.timestampValue
    metaSourceName := "ai-troubleshooter-v10"
    metaSourceType := "log_analysis"
    metaSourceUuid := env.uuidValue
    alertname := alertName
    instanceLabel := if s.pod_name ≠ "" then s.nsName ++ "/" ++ s.pod_name else s.nsName
    labelNamespace := s.nsName
    labelPodName := s.pod_name
    labelSeverity := severity
    summary := alertName ++ " in " ++ s.nsName
    description := s.question
    startsAt := env.timestampValue
    endsAt := "0001-01-01T00:00:00Z"
    generatorURL := "http://ai-troubleshooter-v10/logs?namespace=" ++ s.nsName
    externalURL := "http://ai-troubleshooter-v10"
    groupKey := "alertname:" ++ alertName
    receiver := "Ansible"
    status := "firing"
    version := "4"
    rca := rcaText
    playbook := none }

/-- NODE 4 (`generate`): on empty filtered evidence return the fixed
no-data answer immediately (lines 280-282); on a primary-generation
exception return the error text (lines 619-622); otherwise append the
metadata trailer and, when the namespace is eligible, attempt the
structured-alert extraction, any failure of which (call error or JSON
parse failure) is caught and leaves `ansible_output = none`
(lines 464-617). -/
def generate (env : GenEnv) (s : GraphState) : GraphState :=
  if s.reranked_docs = [] then { s with generation := noDataMsg }
  else
    match env.genCall with
    | .error e => { s with generation := "❌ Generation error: " ++ e }
    | .ok resp =>
      let gen := resp ++ metadataTrailer env s
      if nsEligible s.nsName then
        match env.ansibleCall with
        | .error _ =>
          { s with generation := gen, ansible_output := none, ansible_formatted := none }
        | .ok aresp =>
          match env.jsonParse (extractJson aresp) with
          | none =>
            { s with generation := gen, ansible_output := none, ansible_formatted := none }
          | some parsed =>
            { s with
              generation := gen
              ansible_output := some (buildRemediation env s parsed)
              ansible_formatted := none }
      else
        { s with generation := gen, ansible_output := none, ansible_formatted := none }

/-! ### NODE 5: `transform_query` (lines 624-690) -/

/-- NODE 5 (`transform_query`): a successful rewrite call (oracle `tc`)
installs the stripped new question, appends the previous question to the
transformation history, and increments `iteration`; an exception keeps the
question and history unchanged but still increments `iteration`
(lines 663-690). -/
def transform_query (tc : Except String String) (s : GraphState) : GraphState :=
  match tc with
  | .ok resp =>
    { s with
      question := pyStrip resp
      iteration := s.iteration + 1
      transformation_history := s.transformation_history ++ [s.question] }
  | .error _ => { s with iteration := s.iteration + 1 }

/-! ### Node bookkeeping lemmas (fields a node's returned partial update
does not contain are left unchanged by the controller's merge) -/

@[simp] theorem retrieve_iteration (r : Except String (List String)) (s : GraphState) :
    (retrieve r s).iteration = s.iteration := by
  unfold retrieve; split
  · rfl
  · cases r <;> rfl

@[simp] theorem rerank_iteration (rk : Except String (List Doc)) (s : GraphState) :
    (rerank rk s).iteration = s.iteration := by
  unfold rerank; split
  · rfl
  · cases rk <;> rfl

@[simp] theorem grade_documents_iteration (g : Nat → Except String String) (s : GraphState) :
    (grade_documents g s).iteration = s.iteration := by
  unfold grade_documents; split <;> rfl

@[simp] theorem generate_iteration (env : GenEnv) (s : GraphState) :
    (generate env s).iteration = s.iteration := by
  unfold generate
  split
  · rfl
  · cases env.genCall with
    | error e => rfl
    | ok resp =>
      dsimp only
      split
      · cases env.ansibleCall with
        | error e => rfl
        | ok a => dsimp only; split <;> rfl
      · rfl

@[simp] theorem transform_query_iteration (tc : Except String String) (s : GraphState) :
    (transform_query tc s).iteration = s.iteration + 1 := by
  cases tc <;> rfl

/-! ### The self-correction controller (spec §4.7) -/

/-- Per-pass oracle bundle: outcomes of every external call a single
RETRIEVE→RERANK→GRADE→(GENERATE/TRANSFORM) pass can make, plus the two
abstract routing judgments of the spec (`lowRelevance`: the filtered set is
below the relevance threshold; `genInsufficient`: the generation-quality
signal that requests another transform). -/
structure PassEnv where
  retrieval : Except String (List String)
  rerankCall : Except String (List Doc)
  grades : Nat → Except String String
  genv : GenEnv
  transformCall : Except String String
  lowRelevance : Bool
  genInsufficient : Bool

/-- One RETRIEVE→RERANK→GRADE prefix of a controller pass. -/
def gradedState (env : PassEnv) (s : GraphState) : GraphState :=
  grade_documents env.grades (rerank env.rerankCall (retrieve env.retrieval s))

@[simp] theorem gradedState_iteration (env : PassEnv) (s : GraphState) :
    (gradedState env s).iteration = s.iteration := by
  simp [gradedState]

/-- Modelled from the spec: the self-correction controller state machine of
§4.7 (the LangGraph wiring module that sequences the nodes is not among the
sources — only the node implementations are).  Each pass runs
RETRIEVE→RERANK→GRADE; the GRADE→TRANSFORM edge is taken when the filtered
set is empty or below the relevance threshold and `iteration <
max_iterations`; otherwise GENERATE runs, after which the
GENERATE→TRANSFORM edge may be taken only while `iteration <
max_iterations`; otherwise END.  Returns the final state and the number of
passes through RETRIEVE. -/
def runAux (envs : Nat → PassEnv) (maxIter : Nat) (s : GraphState) (pass : Nat) :
    GraphState × Nat :=
  if ((gradedState (envs pass) s).reranked_docs = [] ∨ (envs pass).lowRelevance = true) ∧
      (gradedState (envs pass) s).iteration < maxIter then
    let p := runAux envs maxIter
      (transform_query (envs pass).transformCall (gradedState (envs pass) s)) (pass + 1)
    (p.1, p.2 + 1)
  else
    if (envs pass).genInsufficient = true ∧
        (generate (envs pass).genv (gradedState (envs pass) s)).iteration < maxIter then
      let p := runAux envs maxIter
        (transform_query (envs pass).transformCall
          (generate (envs pass).genv (gradedState (envs pass) s))) (pass + 1)
      (p.1, p.2 + 1)
    else (generate (envs pass).genv (gradedState (envs pass) s), 1)
termination_by maxIter - s.iteration
decreasing_by
all_goals
  simp only [transform_query_iteration, gradedState_iteration, generate_iteration] at *
  omega

/-- Modelled from the spec: a whole session of the controller, entered at
RETRIEVE with the supplied initial state. -/
def runController (envs : Nat → PassEnv) (maxIter : Nat) (s : GraphState) :
    GraphState × Nat :=
  runAux envs maxIter s 0

/-! ### Sample inputs used by the witnesses -/

/-- A session state with a short evidence text and `iteration = 0`. -/
def sampleState : GraphState :=
  { question := "what errors occurred"
    log_context := "line"
    pod_events := ""
    nsName := "demo"
    pod_name := "pod-1"
    retrieved_docs := []
    reranked_docs := []
    relevance_scores := []
    generation := ""
    iteration := 0
    transformation_history := []
    ansible_output := none
    ansible_formatted := none }

/-- A session state whose evidence text is above the 50-character
threshold. -/
def bigLogState : GraphState :=
  { sampleState with
    log_context :=
      "Error: ImagePullBackOff while starting container payment-api in namespace demo" }

/-- A generation environment in which every model call fails. -/
def sampleGenEnv : GenEnv :=
  { genCall := .error "backend down"
    ansibleCall := .error "backend down"
    jsonParse := fun _ => none
    uuidValue := "uuid-0"
    timestampValue := "2026-01-01T00:00:00Z"
    modelDisplayName := "test-model"
    modelProvider := "vllm" }

/-- A pass environment forcing every fallback path at once. -/
def sampleFailingEnv : PassEnv :=
  { retrieval := .error "retriever down"
    rerankCall := .error "reranker down"
    grades := fun _ => .error "grader down"
    genv := sampleGenEnv
    transformCall := .error "rewriter down"
    lowRelevance := true
    genInsufficient := true }

/-- A one-document state whose single judgment call will answer "no". -/
def gradedNoState : GraphState :=
  { bigLogState with reranked_docs := [{ content := "chunk-a", score := 1 }] }

/-- A generation environment whose primary call succeeds. -/
def okGenEnv : GenEnv :=
  { sampleGenEnv with genCall := .ok "analysis text", ansibleCall := .ok "not json" }

/-- A state carrying one piece of filtered evidence. -/
def evidenceState : GraphState :=
  { bigLogState with reranked_docs := [{ content := "Error: OOMKilled", score := 1 }] }

/-- An oracle bundle whose primary generation succeeds while the
structured-alert call raises. -/
def genFailAnsibleEnv : GenEnv :=
  { sampleGenEnv with genCall := .ok "analysis body" }

/-! ### Lemmas and claim theorems -/

/-- The controller reaches END within `maxIter - iteration + 1` RETRIEVE
passes and never drives `iteration` above `maxIter` (the iteration counter
is nondecreasing along a run, so the bound on the final state bounds every
intermediate state as well). -/
theorem runAux_bound (envs : Nat → PassEnv) (maxIter : Nat) :
    ∀ k s pass, maxIter - s.iteration ≤ k →
      (runAux envs maxIter s pass).2 ≤ maxIter - s.iteration + 1 ∧
      (s.iteration ≤ maxIter → (runAux envs maxIter s pass).1.iteration ≤ maxIter) := by
  intro k
  induction k with
  | zero =>
    intro s pass hk
    rw [runAux]
    split
    · rename_i h
      exfalso
      have h2 := h.2
      simp only [gradedState_iteration] at h2
      omega
    · split
      · rename_i h
        exfalso
        have h2 := h.2
        simp only [generate_iteration, gradedState_iteration] at h2
        omega
      · refine ⟨by omega, fun hi => ?_⟩
        simp only [generate_iteration, gradedState_iteration]
        exact hi
  | succ k ih =>
    intro s pass hk
    rw [runAux]
    split
    · rename_i h
      have h2 := h.2
      simp only [gradedState_iteration] at h2
      obtain ⟨ha, hb⟩ := ih
        (transform_query (envs pass).transformCall (gradedState (envs pass) s)) (pass + 1)
        (by simp only [transform_query_iteration, gradedState_iteration]; omega)
      simp only [transform_query_iteration, gradedState_iteration] at ha hb
      refine ⟨by dsimp only; omega, fun hi => ?_⟩
      dsimp only
      exact hb (by omega)
    · split
      · rename_i h
        have h2 := h.2
        simp only [generate_iteration, gradedState_iteration] at h2
        obtain ⟨ha, hb⟩ := ih
          (transform_query (envs pass).transformCall
            (generate (envs pass).genv (gradedState (envs pass) s))) (pass + 1)
          (by simp only [transform_query_iteration, generate_iteration,
                gradedState_iteration]; omega)
        simp only [transform_query_iteration, generate_iteration, gradedState_iteration]
          at ha hb
        refine ⟨by dsimp only; omega, fun hi => ?_⟩
        dsimp only
        exact hb (by omega)
      · refine ⟨by omega, fun hi => ?_⟩
        simp only [generate_iteration, gradedState_iteration]
        exact hi

/-! ### The claims -/

/-- C1: for every session entered with `iteration = 0` and
`max_iterations = N`, the controller reaches END within at most `N + 1`
passes through RETRIEVE, and the iteration counter never exceeds
`max_iterations` (the counter is nondecreasing along a run, so the bound
on the final state bounds every intermediate one), for every assignment of
outcomes to the node oracles — in particular when every node fallback
path is forced to trigger. -/
theorem controller_bounded_retries (envs : Nat → PassEnv) (maxIter : Nat) (s : GraphState)
    (h0 : s.iteration = 0) :
    (runController envs maxIter s).2 ≤ maxIter + 1 ∧
    (runController envs maxIter s).1.iteration ≤ maxIter := by
  have h := runAux_bound envs maxIter maxIter s 0 (by omega)
  unfold runController
  exact ⟨by have h1 := h.1; omega, h.2 (by omega)⟩

/-- C1 witness: a concrete session with `max_iterations = 2` in which every
oracle fails ends within 3 RETRIEVE passes with `iteration ≤ 2`. -/
theorem controller_bounded_retries_witness :
    sampleState.iteration = 0 ∧
    (runController (fun _ => sampleFailingEnv) 2 sampleState).2 ≤ 2 + 1 ∧
    (runController (fun _ => sampleFailingEnv) 2 sampleState).1.iteration ≤ 2 :=
  ⟨rfl,
   (controller_bounded_retries (fun _ => sampleFailingEnv) 2 sampleState rfl).1,
   (controller_bounded_retries (fun _ => sampleFailingEnv) 2 sampleState rfl).2⟩

/-- C4: when the combined evidence text (log context plus appended pod
events) is empty or shorter than 50 characters, `retrieve` returns an
empty `retrieved_docs` list with the question unchanged, and its result
does not depend on the retriever oracle — no index is built or queried;
the short-circuit is a defined return value, not an error. -/
theorem retrieve_short_circuit (s : GraphState)
    (h : combinedLogs s = "" ∨ (combinedLogs s).length < 50) :
    ∀ r r2 : Except String (List String),
      retrieve r s = retrieve r2 s ∧
      (retrieve r s).retrieved_docs = [] ∧
      (retrieve r s).question = s.question := by
  intro r r2
  have e : ∀ rr : Except String (List String),
      retrieve rr s = { s with retrieved_docs := [] } := by
    intro rr; unfold retrieve; rw [if_pos h]
  rw [e r, e r2]
  exact ⟨rfl, rfl, rfl⟩

/-- C4 witness: a 4-character evidence text short-circuits identically for
a failing and for a succeeding retriever oracle. -/
theorem retrieve_short_circuit_witness :
    (combinedLogs sampleState = "" ∨ (combinedLogs sampleState).length < 50) ∧
    (retrieve (.error "x") sampleState = retrieve (.ok ["doc"]) sampleState ∧
     (retrieve (.error "x") sampleState).retrieved_docs = [] ∧
     (retrieve (.error "x") sampleState).question = sampleState.question) :=
  ⟨by decide, retrieve_short_circuit sampleState (by decide) (.error "x") (.ok ["doc"])⟩

/-- C6: `retrieve` is total — for every oracle outcome it returns a value
whose question is the input question, and an exception during index
construction or querying (the `Except.error` outcome) is converted into an
empty `retrieved_docs` list. -/
theorem retrieve_never_raises (r : Except String (List String)) (s : GraphState) :
    (retrieve r s).question = s.question ∧
    (∀ e, r = .error e → (retrieve r s).retrieved_docs = []) := by
  constructor
  · unfold retrieve
    split
    · rfl
    · cases r <;> rfl
  · intro e he
    subst he
    unfold retrieve
    split <;> rfl

/-- C6 witness: a failing retriever over a long evidence text yields the
empty list and the unchanged question. -/
theorem retrieve_never_raises_witness :
    (retrieve (.error "boom") bigLogState).question = bigLogState.question ∧
    (retrieve (.error "boom") bigLogState).retrieved_docs = [] :=
  ⟨(retrieve_never_raises (.error "boom") bigLogState).1,
   (retrieve_never_raises (.error "boom") bigLogState).2 "boom" rfl⟩

/-- C7: whenever the reranker call raises, the fallback output of `rerank`
has length at most 5, is ordered by descending fusion score, and consists
only of original (unreranked) candidates. -/
theorem rerank_failure_fallback (e : String) (s : GraphState) :
    (rerank (.error e) s).reranked_docs.length ≤ 5 ∧
    List.Pairwise (fun a b => b.score ≤ a.score) (rerank (.error e) s).reranked_docs ∧
    ∀ d ∈ (rerank (.error e) s).reranked_docs, d ∈ s.retrieved_docs := by
  unfold rerank
  split
  · exact ⟨by simp, by simp, by simp⟩
  · dsimp only
    have htrans : ∀ a b c : Doc, decide (b.score ≤ a.score) = true →
        decide (c.score ≤ b.score) = true → decide (c.score ≤ a.score) = true := by
      intro a b c hab hbc
      simp only [decide_eq_true_eq] at *
      exact le_trans hbc hab
    have htotal : ∀ a b : Doc,
        (decide (b.score ≤ a.score) || decide (a.score ≤ b.score)) = true := by
      intro a b
      simpa [Bool.or_eq_true, decide_eq_true_eq] using le_total b.score a.score
    have hp := List.sorted_mergeSort htrans htotal s.retrieved_docs
    refine ⟨?_, ?_, ?_⟩
    · show (rerankFallback s.retrieved_docs).length ≤ 5
      unfold rerankFallback
      simp [List.length_take]
    · show List.Pairwise (fun a b : Doc => b.score ≤ a.score) (rerankFallback s.retrieved_docs)
      unfold rerankFallback
      exact (List.Pairwise.sublist (List.take_sublist 5 _) hp).imp
        (fun hab => by simpa using hab)
    · show ∀ d ∈ rerankFallback s.retrieved_docs, d ∈ s.retrieved_docs
      intro d hd
      unfold rerankFallback at hd
      exact (List.mem_mergeSort).1 (List.take_subset 5 _ hd)

/-- C8: a failed query-rewrite call leaves the question unchanged while
still incrementing `iteration` by exactly one, consuming one unit of retry
budget. -/
theorem transform_failure_consumes_budget (e : String) (s : GraphState) :
    (transform_query (.error e) s).question = s.question ∧
    (transform_query (.error e) s).iteration = s.iteration + 1 :=
  ⟨rfl, rfl⟩

/-! ### Grading characterization -/

/-- The grading loop is the decision table applied pointwise: the filtered
list keeps exactly the documents whose decision is `keep`, in order, and
the score list records every document's decision score, in input order. -/
theorem gradeLoop_eq (g : Nat → Except String String) :
    ∀ (i : Nat) (ds : List Doc),
      gradeLoop g i ds =
        (((List.enumFrom i ds).filter (fun p => (specGradeDecision (g p.1)).1)).map Prod.snd,
         (List.enumFrom i ds).map (fun p => (specGradeDecision (g p.1)).2)) := by
  intro i ds
  induction ds generalizing i with
  | nil => rfl
  | cons d ds ih =>
    cases hg : g i with
    | ok resp =>
      by_cases hy : pyContains (pyLower resp) "yes" = true
      · simp [gradeLoop, hg, specGradeDecision, hy, List.filter_cons, ih]
      · simp [gradeLoop, hg, specGradeDecision, hy, List.filter_cons, ih]
    | error e =>
      simp [gradeLoop, hg, specGradeDecision, List.filter_cons, ih]

/-- C2 counterexample: when the grader answers "no" for the single input
document, the filtered chunk list is empty while the relevance-score array
still records one `0.0` entry — the two outputs of `grade_documents` do
not have equal length. -/
theorem grade_parallel_counterexample :
    ((grade_documents (fun _ => .ok "no") gradedNoState).reranked_docs).length ≠
    ((grade_documents (fun _ => .ok "no") gradedNoState).relevance_scores).length := by
  decide

/-- C2 amended: the relevance-score array is parallel to the *pre-filtered*
input list — equal length, with the i-th score recording the i-th input
document's grading decision — while the filtered chunk list is a
subsequence of the input (so the two outputs agree in length exactly when
no document is dropped). -/
theorem grade_scores_parallel_input (g : Nat → Except String String) (s : GraphState) :
    (grade_documents g s).relevance_scores.length = s.reranked_docs.length ∧
    (grade_documents g s).relevance_scores =
      (List.enumFrom 0 s.reranked_docs).map (fun p => (specGradeDecision (g p.1)).2) ∧
    (grade_documents g s).reranked_docs.Sublist s.reranked_docs := by
  unfold grade_documents
  split
  · rename_i h
    rw [h]
    simp
  · dsimp only
    rw [gradeLoop_eq]
    refine ⟨?_, rfl, ?_⟩
    · simp
    · have h1 := (List.filter_sublist (p := fun p => (specGradeDecision (g p.1)).1)
        (List.enumFrom 0 s.reranked_docs)).map Prod.snd
      rwa [List.enumFrom_map_snd] at h1

/-- C3: the outcome of `grade_documents` for every document is a
deterministic function of that document's judgment-call outcome alone,
following the decision table: a successful call whose lowercased response
contains `yes` keeps the document with score 1.0, a successful call
without it drops the document with score 0.0, and a raised call keeps the
document with score 0.5. -/
theorem grade_documents_decision_table (g : Nat → Except String String) (s : GraphState) :
    ((grade_documents g s).reranked_docs =
      ((List.enumFrom 0 s.reranked_docs).filter
        (fun p => (specGradeDecision (g p.1)).1)).map Prod.snd ∧
     (grade_documents g s).relevance_scores =
      (List.enumFrom 0 s.reranked_docs).map (fun p => (specGradeDecision (g p.1)).2)) ∧
    (specGradeDecision (.error "any") = (true, 1 / 2)) ∧
    (∀ t, pyContains (pyLower t) "yes" = true → specGradeDecision (.ok t) = (true, 1)) ∧
    (∀ t, pyContains (pyLower t) "yes" = false → specGradeDecision (.ok t) = (false, 0)) := by
  refine ⟨?_, rfl, ?_, ?_⟩
  · unfold grade_documents
    split
    · rename_i h
      rw [h]
      simp
    · dsimp only
      rw [gradeLoop_eq]
      exact ⟨rfl, rfl⟩
  · intro t ht
    simp [specGradeDecision, ht]
  · intro t ht
    simp [specGradeDecision, ht]

/-- C5: `generate` on an empty filtered document list returns the fixed
no-data answer immediately — the result does not depend on any of the
generation oracles (no model call is issued) and the question passes
through unchanged; the branch produces a defined answer value, not an
error. -/
theorem generate_empty_short_circuit (env env2 : GenEnv) (s : GraphState)
    (h : s.reranked_docs = []) :
    generate env s = generate env2 s ∧
    (generate env s).generation = noDataMsg ∧
    (generate env s).question = s.question := by
  have e : ∀ ev : GenEnv, generate ev s = { s with generation := noDataMsg } := by
    intro ev; unfold generate; rw [if_pos h]
  rw [e env, e env2]
  exact ⟨rfl, rfl, rfl⟩

/-- C5 witness: with no filtered evidence, a failing and a succeeding
oracle bundle produce the same fixed no-data answer. -/
theorem generate_empty_short_circuit_witness :
    bigLogState.reranked_docs = [] ∧
    (generate sampleGenEnv bigLogState = generate okGenEnv bigLogState ∧
     (generate sampleGenEnv bigLogState).generation = noDataMsg ∧
     (generate sampleGenEnv bigLogState).question = bigLogState.question) :=
  ⟨rfl, generate_empty_short_circuit sampleGenEnv okGenEnv bigLogState rfl⟩

/-- C10: the structured-alert extraction is attempted only when a
namespace-like identifier is present (for an ineligible namespace the
result does not depend on the alert oracle or the JSON parser at all), and
any failure of the secondary path — the alert call raising, or its payload
failing to parse — leaves the primary textual answer intact with the
structured payload set to `none`. -/
theorem generate_structured_graceful (env : GenEnv) (s : GraphState) (resp : String)
    (hdocs : s.reranked_docs ≠ []) (hok : env.genCall = .ok resp) :
    (nsEligible s.nsName = false →
      (generate env s).ansible_output = none ∧
      ∀ ac jp, generate { env with ansibleCall := ac, jsonParse := jp } s = generate env s) ∧
    (nsEligible s.nsName = true →
      (∀ e, env.ansibleCall = .error e →
        (generate env s).generation = resp ++ metadataTrailer env s ∧
        (generate env s).ansible_output = none) ∧
      (∀ a, env.ansibleCall = .ok a → env.jsonParse (extractJson a) = none →
        (generate env s).generation = resp ++ metadataTrailer env s ∧
        (generate env s).ansible_output = none)) := by
  obtain ⟨gc, ac0, jp0, uu, ts, dn, pv⟩ := env
  cases hok
  constructor
  · intro hns
    constructor
    · unfold generate
      rw [if_neg hdocs]
      dsimp only
      rw [if_neg (by simp [hns])]
    · intro ac jp
      unfold generate
      rw [if_neg hdocs, if_neg hdocs]
      dsimp only
      rw [if_neg (by simp [hns]), if_neg (by simp [hns])]
      rfl
  · intro hns
    constructor
    · intro e he
      cases he
      unfold generate
      rw [if_neg hdocs]
      dsimp only
      rw [if_pos hns]
      exact ⟨rfl, rfl⟩
    · intro a ha hparse
      cases ha
      unfold generate
      rw [if_neg hdocs]
      dsimp only
      rw [if_pos hns]
      rw [show jp0 (extractJson a) = none from hparse]
      exact ⟨rfl, rfl⟩

/-- C10 witness: with evidence present, an eligible namespace, and a
failing structured-alert call, the primary answer is returned with the
metadata trailer and the structured payload is `none`. -/
theorem generate_structured_graceful_witness :
    evidenceState.reranked_docs ≠ [] ∧
    genFailAnsibleEnv.genCall = .ok "analysis body" ∧
    nsEligible evidenceState.nsName = true ∧
    ((generate genFailAnsibleEnv evidenceState).generation =
      "analysis body" ++ metadataTrailer genFailAnsibleEnv evidenceState ∧
     (generate genFailAnsibleEnv evidenceState).ansible_output = none) :=
  ⟨by decide, rfl, by decide,
   ((generate_structured_graceful genFailAnsibleEnv evidenceState "analysis body"
      (by decide) rfl).2 (by decide)).1 "backend down" rfl⟩

/-! ### Transformation-history bookkeeping -/

@[simp] theorem retrieve_history (r : Except String (List String)) (s : GraphState) :
    (retrieve r s).transformation_history = s.transformation_history := by
  unfold retrieve
  split
  · rfl
  · cases r <;> rfl

@[simp] theorem rerank_history (rk : Except String (List Doc)) (s : GraphState) :
    (rerank rk s).transformation_history = s.transformation_history := by
  unfold rerank
  split
  · rfl
  · cases rk <;> rfl

@[simp] theorem grade_documents_history (g : Nat → Except String String) (s : GraphState) :
    (grade_documents g s).transformation_history = s.transformation_history := by
  unfold grade_documents
  split <;> rfl

@[simp] theorem generate_history (env : GenEnv) (s : GraphState) :
    (generate env s).transformation_history = s.transformation_history := by
  unfold generate
  split
  · rfl
  · cases env.genCall with
    | error e => rfl
    | ok resp =>
      dsimp only
      split
      · cases env.ansibleCall with
        | error e => rfl
        | ok a =>
          dsimp only
          split <;> rfl
      · rfl

/-- C9 counterexample: a failed rewrite increments `iteration` without
appending to `transformation_history` — from iteration 0 and empty
history, `transform_query` returns iteration 1 with a still-empty history,
so the stated equality fails after that step. -/
theorem history_length_counterexample :
    ((transform_query (.error "rewrite backend down")
        sampleState).transformation_history).length ≠
    (transform_query (.error "rewrite backend down") sampleState).iteration := by
  decide

/-- C9 amended: each *successful* `transform_query` invocation appends the
previous question and increments `iteration`, preserving
`transformation_history.length = iteration`, and every other node
preserves both fields; but a *failed* invocation increments `iteration`
without appending, so across arbitrary steps only
`transformation_history.length ≤ iteration` is invariant, with equality
whenever no transform call has failed. -/
theorem history_tracks_iteration (s : GraphState)
    (h : s.transformation_history.length = s.iteration) :
    (∀ q, ((transform_query (.ok q) s).transformation_history).length =
      (transform_query (.ok q) s).iteration) ∧
    (∀ e, ((transform_query (.error e) s).transformation_history).length + 1 =
      (transform_query (.error e) s).iteration) ∧
    (∀ tc, ((transform_query tc s).transformation_history).length ≤
      (transform_query tc s).iteration) ∧
    (∀ r, (retrieve r s).transformation_history.length = (retrieve r s).iteration) ∧
    (∀ rk, (rerank rk s).transformation_history.length = (rerank rk s).iteration) ∧
    (∀ g, (grade_documents g s).transformation_history.length =
      (grade_documents g s).iteration) ∧
    (∀ env, (generate env s).transformation_history.length = (generate env s).iteration) := by
  refine ⟨?_, ?_, ?_, ?_, ?_, ?_, ?_⟩
  · intro q
    simp [transform_query, h]
  · intro e
    simp [transform_query, h]
  · intro tc
    cases tc <;> simp [transform_query, h]
  · intro r
    simp [h]
  · intro rk
    simp [h]
  · intro g
    simp [h]
  · intro env
    simp [h]

/-- C9 witness: from a state with empty history and iteration 0, a
successful rewrite restores the equality at iteration 1. -/
theorem history_tracks_iteration_witness :
    sampleState.transformation_history.length = sampleState.iteration ∧
    ((transform_query (.ok "refined question") sampleState).transformation_history).length =
      (transform_query (.ok "refined question") sampleState).iteration :=
  ⟨rfl, (history_tracks_iteration sampleState rfl).1 "refined question"⟩
